import Mathlib

/-!
Verification of the authentication/session subsystem of the automaker server.

The repository provides, under `src/`:
* the auth routes (`createAuthRoutes`: status / login / token / logout),
* the unit tests of `lib/auth.js` (`authMiddleware` behaviour),
* the validate-feature route handler.

The implementation file `lib/auth.js` itself (its `validateApiKey`,
`authMiddleware`, session store, `isRequestAuthenticated`,
`createWsConnectionToken`) is not part of the sources; those operations are
modelled from the specification, as marked in their doc comments.  The route
handlers are translated directly from the route source.
-/

namespace Automaker

/-- Tokens minted by the server.  Modelled from the spec: session tokens and
connection tokens are opaque unguessable identifiers living in separate
namespaces ("never equal, never reusable as a session token"); cryptographic
randomness is determinized as a monotone counter, the namespace separation as
two constructors. -/
inductive Token where
  | session (id : Nat)
  | ws (id : Nat)
deriving DecidableEq, Repr

/-- True exactly on session-namespace tokens. -/
def Token.isSessionTok : Token → Bool
  | .session _ => true
  | .ws _ => false

/-- Numeric identity of a token inside its namespace. -/
def Token.ident : Token → Nat
  | .session i => i
  | .ws i => i

/-- Process-wide authentication state.  Modelled from the spec: the configured
secret (absent = not configured), the session store (token ↦ absolute expiry),
the connection-token store (token ↦ absolute expiry), the freshness counter of
the token generator, and the current time. -/
structure AuthState where
  secret : Option String
  sessions : List (Token × Nat)
  wsTokens : List (Token × Nat)
  counter : Nat
  now : Nat
deriving DecidableEq, Repr

/-- Session lifetime policy constant (seconds).  Modelled from the spec: a
fixed maximum lifetime; its exact value is unspecified, only positivity
matters here. -/
def sessionTTL : Nat := 86400

/-- Connection-token lifetime policy constant: 5 minutes in seconds. -/
def connectionTokenTTL : Nat := 300

/-- Modelled from the spec: `validateApiKey` of the missing `lib/auth.js`.
"If no secret is configured, every presented key is rejected (fail closed)";
otherwise the presented key is compared with the secret. -/
def validateApiKey (secret : Option String) (presented : String) : Bool :=
  match secret with
  | none => false
  | some s => presented == s

/-- Modelled from the spec: `SessionStore.get` — returns the session's expiry
iff the token is present and `now < expiresAt`; an expired entry reads as
absent. -/
def sessionGet (st : AuthState) (t : Token) : Option Nat :=
  match st.sessions.lookup t with
  | some exp => if st.now < exp then some exp else none
  | none => none

/-- Modelled from the spec: `createSession` — generates a fresh unguessable
token, inserts a session expiring at `now + sessionTTL`, returns the token. -/
def createSession (st : AuthState) : Token × AuthState :=
  let t := Token.session st.counter
  (t, { st with sessions := (t, st.now + sessionTTL) :: st.sessions,
                counter := st.counter + 1 })

/-- Modelled from the spec: `invalidateSession` — removes the session if
present; removing an absent token is a no-op, never an error. -/
def invalidateSession (st : AuthState) (t : Token) : AuthState :=
  { st with sessions := st.sessions.filter (fun p => !(p.1 == t)) }

/-- Modelled from the spec and the route call site: `createWsConnectionToken`
of the missing `lib/auth.js` — mints a fresh token in the connection-token
namespace expiring after the fixed 5-minute TTL.  The route source calls it
with no session argument, so no issuing-session reference is recorded. -/
def createWsConnectionToken (st : AuthState) : Token × AuthState :=
  let t := Token.ws st.counter
  (t, { st with wsTokens := (t, st.now + connectionTokenTTL) :: st.wsTokens,
                counter := st.counter + 1 })

/-- An inbound request: the three credential channels accepted by the gate
(API-key header, session cookie, session-token header) and the login body. -/
structure Request where
  apiKeyHeader : Option String
  sessionCookie : Option Token
  sessionTokenHeader : Option Token
  bodyApiKey : Option String
deriving DecidableEq, Repr

/-- Outcome of the authorization decision function. -/
inductive AuthDecision where
  | authenticated
  | missingCredentials
  | invalidApiKey
  | invalidSession
deriving DecidableEq, Repr

/-- Modelled from the spec: the AuthGate decision function.  Extractors run in
fixed precedence order — API-key header, then session cookie, then
session-token header — and the first structurally present credential wins,
independent of validity; no credential at all is `MissingCredentials`. -/
def authenticate (st : AuthState) (req : Request) : AuthDecision :=
  match req.apiKeyHeader with
  | some k => if validateApiKey st.secret k then .authenticated else .invalidApiKey
  | none =>
    match req.sessionCookie with
    | some t => if (sessionGet st t).isSome then .authenticated else .invalidSession
    | none =>
      match req.sessionTokenHeader with
      | some t => if (sessionGet st t).isSome then .authenticated else .invalidSession
      | none => .missingCredentials

/-- Modelled from the spec: `isRequestAuthenticated` — the same decision
function, reported as a boolean, never rejecting. -/
def isRequestAuthenticated (st : AuthState) (req : Request) : Bool :=
  authenticate st req == .authenticated

/-- A JSON response body; fields absent from a given response are `none`. -/
structure Body where
  success : Bool
  error : Option String := none
  message : Option String := none
  token : Option Token := none
  expiresIn : Option Nat := none
  authenticated : Option Bool := none
  required : Option Bool := none
deriving DecidableEq, Repr

/-- Observable outcome of the gating middleware on one request: whether the
downstream handler ran, and any status/body written. -/
structure MwOutcome where
  nextCalled : Bool
  status : Option Nat
  body : Option Body
deriving DecidableEq, Repr

/-- Modelled from the spec and the unit tests: `authMiddleware` —
`MissingCredentials` maps to 401 "Authentication required.", any other
unauthenticated reason to 403 "Invalid API key.", and an authenticated
request proceeds (`next()` called, no status written). -/
def authMiddleware (st : AuthState) (req : Request) : MwOutcome :=
  match authenticate st req with
  | .authenticated => { nextCalled := true, status := none, body := none }
  | .missingCredentials =>
      { nextCalled := false, status := some 401,
        body := some { success := false, error := some "Authentication required." } }
  | _ =>
      { nextCalled := false, status := some 403,
        body := some { success := false, error := some "Invalid API key." } }

/-- Whether any credential channel is structurally present on the request. -/
def hasCredential (req : Request) : Bool :=
  req.apiKeyHeader.isSome || req.sessionCookie.isSome || req.sessionTokenHeader.isSome

/-- Observable outcome of a route handler: HTTP status (`res.json` without an
explicit status is 200), body, session cookie set (with its value), and
whether the session cookie was cleared. -/
structure RouteResponse where
  status : Nat
  body : Body
  setCookie : Option Token := none
  clearedCookie : Bool := false
deriving DecidableEq, Repr

/-- JavaScript falsiness of the optional `apiKey` body field: absent or the
empty string. -/
def isFalsy : Option String → Bool
  | none => true
  | some s => s == ""

/-- `POST /api/auth/login`, translated from `createAuthRoutes`: a falsy
`apiKey` is 400 "API key is required."; a key rejected by `validateApiKey` is
401 "Invalid API key."; otherwise a session is created, the cookie is set to
the new session token and the token is also returned in the 200 body. -/
def loginRoute (st : AuthState) (req : Request) : RouteResponse × AuthState :=
  if isFalsy req.bodyApiKey then
    ({ status := 400,
       body := { success := false, error := some "API key is required." } }, st)
  else
    match req.bodyApiKey with
    | none =>
        ({ status := 400,
           body := { success := false, error := some "API key is required." } }, st)
    | some k =>
        if !validateApiKey st.secret k then
          ({ status := 401,
             body := { success := false, error := some "Invalid API key." } }, st)
        else
          let (sessionToken, st') := createSession st
          ({ status := 200,
             body := { success := true, message := some "Logged in successfully.",
                       token := some sessionToken },
             setCookie := some sessionToken }, st')

/-- `GET /api/auth/token`, translated from `createAuthRoutes`: 401
"Authentication required." unless `isRequestAuthenticated`; otherwise a fresh
connection token with `expiresIn` 300. -/
def tokenRoute (st : AuthState) (req : Request) : RouteResponse × AuthState :=
  if !isRequestAuthenticated st req then
    ({ status := 401,
       body := { success := false, error := some "Authentication required." } }, st)
  else
    let (wsToken, st') := createWsConnectionToken st
    ({ status := 200,
       body := { success := true, token := some wsToken,
                 expiresIn := some connectionTokenTTL } }, st')

/-- `POST /api/auth/logout`, translated from `createAuthRoutes`: invalidates
the session named by the cookie when one is present, always clears the cookie
and responds 200 "Logged out successfully.". -/
def logoutRoute (st : AuthState) (req : Request) : RouteResponse × AuthState :=
  let st' :=
    match req.sessionCookie with
    | some t => invalidateSession st t
    | none => st
  ({ status := 200,
     body := { success := true, message := some "Logged out successfully." },
     clearedCookie := true }, st')

/-- `GET /api/auth/status`, translated from `createAuthRoutes`: always 200
with the boolean reported by `isRequestAuthenticated`. -/
def statusRoute (st : AuthState) (req : Request) : RouteResponse × AuthState :=
  ({ status := 200,
     body := { success := true,
               authenticated := some (isRequestAuthenticated st req),
               required := some true } }, st)

/-- Well-formedness of the store: every stored session token lives in the
session namespace with identity below the generator counter, and every stored
connection token in the other namespace likewise.  Holds of the empty initial
store and is preserved by every operation. -/
def WF (st : AuthState) : Prop :=
  (∀ p ∈ st.sessions, p.1.isSessionTok = true ∧ p.1.ident < st.counter)
  ∧ (∀ p ∈ st.wsTokens, p.1.isSessionTok = false ∧ p.1.ident < st.counter)

instance (st : AuthState) : Decidable (WF st) := by
  unfold WF; infer_instance

/-! ### Validate-feature route (`validate-feature.ts`)

The handler's control flow is driven by the feature loader and the agent
service, which are external collaborators; their observable outcomes are
enumerated by `AgentOutcome`.  Only the assessment extraction is modelled in
detail; the `reasoning` and `evidence` captures are elided as no claim
mentions them. -/

/-- Whitespace in the sense of the JavaScript regex class used by
`response.match`. -/
def isJsSpace (c : Char) : Bool :=
  c == ' ' || c == '\t' || c == '\n' || c == '\r' ||
  c == Char.ofNat 0x0b || c == Char.ofNat 0x0c ||
  c == Char.ofNat 0xa0 || c == Char.ofNat 0x1680 ||
  (0x2000 ≤ c.toNat && c.toNat ≤ 0x200a) ||
  c == Char.ofNat 0x2028 || c == Char.ofNat 0x2029 || c == Char.ofNat 0x202f ||
  c == Char.ofNat 0x205f || c == Char.ofNat 0x3000 || c == Char.ofNat 0xfeff

/-- Greedy match of the whitespace star in the assessment regex (no
backtracking is needed: no alternative of the pattern starts with a
whitespace character). -/
def dropSpaces : List Char → List Char
  | [] => []
  | c :: cs => if isJsSpace c then dropSpaces cs else c :: cs

/-- Match a literal at the head of the input, returning the remainder. -/
def stripLiteral : List Char → List Char → Option (List Char)
  | [], cs => some cs
  | _ :: _, [] => none
  | l :: ls, c :: cs => if c == l then stripLiteral ls cs else none

/-- The alternation `FULLY_IMPLEMENTED|PARTIALLY_IMPLEMENTED|NOT_IMPLEMENTED`
of the assessment regex, tried left to right; the returned string is the
content of capture group 1. -/
def tryAlt (cs : List Char) : Option String :=
  match stripLiteral "FULLY_IMPLEMENTED".toList cs with
  | some _ => some "FULLY_IMPLEMENTED"
  | none =>
    match stripLiteral "PARTIALLY_IMPLEMENTED".toList cs with
    | some _ => some "PARTIALLY_IMPLEMENTED"
    | none =>
      match stripLiteral "NOT_IMPLEMENTED".toList cs with
      | some _ => some "NOT_IMPLEMENTED"
      | none => none

/-- The greedy, backtracking `\*{0,2}` of the assessment regex followed by the
alternation (the trailing `\*{0,2}` always matches and captures nothing). -/
def tryStars (cs : List Char) : Option String :=
  match cs with
  | '*' :: '*' :: rest =>
      (tryAlt rest).orElse fun _ =>
        (tryAlt ('*' :: rest)).orElse fun _ => tryAlt ('*' :: '*' :: rest)
  | '*' :: rest => (tryAlt rest).orElse fun _ => tryAlt ('*' :: rest)
  | _ => tryAlt cs

/-- Leftmost match of the assessment regex
`ASSESSMENT:\s*\*{0,2}(FULLY_IMPLEMENTED|PARTIALLY_IMPLEMENTED|NOT_IMPLEMENTED)\*{0,2}`:
the pattern is tried at each start position from the left; the result is
capture group 1 of the first successful match. -/
def findAssessment : List Char → Option String
  | [] => none
  | c :: cs =>
    match stripLiteral "ASSESSMENT:".toList (c :: cs) with
    | some rest =>
      match tryStars (dropSpaces rest) with
      | some a => some a
      | none => findAssessment cs
    | none => findAssessment cs

/-- The handler's `assessmentMatch?.[1] || 'NOT_IMPLEMENTED'`: capture group 1
of the regex match, defaulting to `NOT_IMPLEMENTED` when there is no match
(the capture is never the empty string, so JavaScript falsiness coincides
with absence). -/
def extractAssessment (response : String) : String :=
  match findAssessment response.toList with
  | some a => a
  | none => "NOT_IMPLEMENTED"

/-- Observable outcomes of the external collaborators inside
`createValidateFeatureHandler`: feature lookup, session creation, message
send, the agent result's success flag, and on success the agent message
content (`result.message?.content`). -/
inductive AgentOutcome where
  | featureNotFound
  | sessionCreateFailed
  | sendFailed
  | resultNotSuccess
  | thrown (msg : String)
  | agentReply (content : Option String)
deriving DecidableEq, Repr

/-- Response of the validate-feature handler; `reasoning` and `evidence` are
elided (see the section comment). -/
structure VResponse where
  status : Nat
  success : Bool
  error : Option String := none
  assessment : Option String := none
  fullResponse : Option String := none
deriving DecidableEq, Repr

/-- The validate-feature handler, translated from
`createValidateFeatureHandler` with the collaborator calls abstracted by
`AgentOutcome`. -/
def validateFeatureHandler (o : AgentOutcome) : VResponse :=
  match o with
  | .featureNotFound =>
      { status := 404, success := false, error := some "Feature not found" }
  | .sessionCreateFailed =>
      { status := 500, success := false, error := some "Failed to create agent session" }
  | .sendFailed =>
      { status := 500, success := false, error := some "Failed to send message to agent" }
  | .resultNotSuccess =>
      { status := 500, success := false, error := some "Failed to validate feature" }
  | .thrown msg =>
      { status := 500, success := false, error := some msg }
  | .agentReply content =>
      let response := content.getD ""
      { status := 200, success := true,
        assessment := some (extractAssessment response),
        fullResponse := some response }

end Automaker

namespace Automaker

/-- C1: `validateApiKey` succeeds exactly when a secret is configured and the
presented key equals it; with no secret every key is rejected (fail closed);
with a secret, the secret validates and every other string is rejected. -/
theorem validateApiKey_correct (oSecret : Option String) (secret s : String) :
    (validateApiKey oSecret s = true ↔ oSecret = some s)
    ∧ validateApiKey none s = false
    ∧ validateApiKey (some secret) secret = true
    ∧ (s ≠ secret → validateApiKey (some secret) s = false) := by
  refine ⟨?_, rfl, by simp [validateApiKey], ?_⟩
  · cases oSecret with
    | none => simp [validateApiKey]
    | some v =>
        simp only [validateApiKey, beq_iff_eq, Option.some.injEq]
        constructor
        · intro h; exact h.symm
        · intro h; exact h.symm
  · intro hne
    simp only [validateApiKey, beq_eq_false_iff_ne, ne_eq]
    exact hne

/-- Witness for C1 at concrete keys. -/
theorem validateApiKey_correct_witness :
    (validateApiKey (some "k") "x" = true ↔ (some "k" : Option String) = some "x")
    ∧ validateApiKey none "x" = false
    ∧ validateApiKey (some "k") "k" = true
    ∧ validateApiKey (some "k") "x" = false := by
  obtain ⟨h1, h2, h3, h4⟩ := validateApiKey_correct (some "k") "k" "x"
  exact ⟨h1, h2, h3, h4 (by decide)⟩

/-- The gate classifies a request as `MissingCredentials` exactly when no
credential channel is structurally present. -/
theorem authenticate_missing_iff (st : AuthState) (req : Request) :
    authenticate st req = .missingCredentials ↔ hasCredential req = false := by
  unfold authenticate hasCredential
  cases req.apiKeyHeader with
  | some k => simp; split <;> simp
  | none =>
    cases req.sessionCookie with
    | some t => simp; split <;> simp
    | none =>
      cases req.sessionTokenHeader with
      | some t => simp; split <;> simp
      | none => simp

/-- Claim C2: the gating middleware rejects a request carrying no credential
with 401 "Authentication required." without invoking the downstream handler,
rejects a present-but-invalid credential with 403 "Invalid API key." without
invoking the downstream handler, and lets a valid request proceed with no
status written. -/
theorem authMiddleware_gate (st : AuthState) (req : Request) :
    (hasCredential req = false →
      authMiddleware st req =
        { nextCalled := false, status := some 401,
          body := some { success := false, error := some "Authentication required." } })
    ∧ (hasCredential req = true → isRequestAuthenticated st req = false →
      authMiddleware st req =
        { nextCalled := false, status := some 403,
          body := some { success := false, error := some "Invalid API key." } })
    ∧ (isRequestAuthenticated st req = true →
      authMiddleware st req = { nextCalled := true, status := none, body := none }) := by
  have hmiss := authenticate_missing_iff st req
  unfold authMiddleware isRequestAuthenticated at *
  cases h : authenticate st req <;> rw [h] at hmiss <;>
    refine ⟨?_, ?_, ?_⟩ <;> simp_all

/-- Witness for C2: the three middleware outcomes at concrete requests
against a store holding the secret "k" and one live session. -/
theorem authMiddleware_gate_witness :
    (authMiddleware ⟨some "k", [(Token.session 0, 100)], [], 1, 0⟩ ⟨none, none, none, none⟩ =
      { nextCalled := false, status := some 401,
        body := some { success := false, error := some "Authentication required." } })
    ∧ (authMiddleware ⟨some "k", [(Token.session 0, 100)], [], 1, 0⟩
        ⟨some "wrong", none, none, none⟩ =
      { nextCalled := false, status := some 403,
        body := some { success := false, error := some "Invalid API key." } })
    ∧ (authMiddleware ⟨some "k", [(Token.session 0, 100)], [], 1, 0⟩
        ⟨some "k", none, none, none⟩ =
      { nextCalled := true, status := none, body := none }) :=
  ⟨(authMiddleware_gate _ _).1 (by decide),
   (authMiddleware_gate _ ⟨some "wrong", none, none, none⟩).2.1 (by decide) (by decide),
   (authMiddleware_gate _ ⟨some "k", none, none, none⟩).2.2 (by decide)⟩

/-- A lookup misses exactly when no stored pair has the looked-up key. -/
theorem lookup_eq_none_iff (l : List (Token × Nat)) (t : Token) :
    l.lookup t = none ↔ ∀ p ∈ l, p.1 ≠ t := by
  induction l with
  | nil => simp [List.lookup]
  | cons hd tl ih =>
    obtain ⟨k, v⟩ := hd
    by_cases hk : k = t
    · subst hk; simp [List.lookup]
    · have hbeq : (t == k) = false := by
        simp; exact fun h => hk h.symm
      simp [List.lookup, hbeq, hk, ih]

/-- After filtering out a key, looking it up misses. -/
theorem lookup_filter_ne (l : List (Token × Nat)) (t : Token) :
    (l.filter fun p => !(p.1 == t)).lookup t = none := by
  rw [lookup_eq_none_iff]
  intro p hp
  simpa using (List.mem_filter.mp hp).2

/-- Filtering out an absent key changes nothing. -/
theorem filter_ne_of_lookup_none (l : List (Token × Nat)) (t : Token)
    (h : l.lookup t = none) : (l.filter fun p => !(p.1 == t)) = l := by
  apply List.filter_eq_self.mpr
  intro a ha
  simpa using (lookup_eq_none_iff l t).mp h a ha

/-- Claim C3: on a login request carrying a non-empty `apiKey`, a rejected key
yields 401 "Invalid API key." with no cookie set and no session created, and
an accepted key yields 200 "Logged in successfully." with a newly created
session whose token is both the cookie value and the in-body token. -/
theorem loginRoute_spec (st : AuthState) (req : Request) (k : String)
    (hWF : WF st) (hbody : req.bodyApiKey = some k) (hk : k ≠ "") :
    (validateApiKey st.secret k = false →
      (loginRoute st req).1 =
        { status := 401, body := { success := false, error := some "Invalid API key." } }
      ∧ (loginRoute st req).2 = st)
    ∧ (validateApiKey st.secret k = true →
      ∃ t,
        (loginRoute st req).1.status = 200
        ∧ (loginRoute st req).1.body =
            { success := true, message := some "Logged in successfully.", token := some t }
        ∧ (loginRoute st req).1.setCookie = some t
        ∧ st.sessions.lookup t = none
        ∧ sessionGet (loginRoute st req).2 t = some (st.now + sessionTTL)) := by
  have hfalsy : isFalsy (some k) = false := by
    simpa [isFalsy] using hk
  constructor
  · intro hv
    constructor <;> simp [loginRoute, hfalsy, hbody, hv]
  · intro hv
    refine ⟨Token.session st.counter, ?_, ?_, ?_, ?_, ?_⟩
    · simp [loginRoute, hfalsy, hbody, hv, createSession]
    · simp [loginRoute, hfalsy, hbody, hv, createSession]
    · simp [loginRoute, hfalsy, hbody, hv, createSession]
    · rw [lookup_eq_none_iff]
      intro p hp heq
      obtain ⟨_, hlt⟩ := hWF.1 p hp
      rw [heq] at hlt
      simp [Token.ident] at hlt
    · simp [loginRoute, hfalsy, hbody, hv, createSession, sessionGet, List.lookup,
        sessionTTL]

/-- Witness for C3: a wrong key is refused and the right key "k" logs in,
against a store configured with secret "k". -/
theorem loginRoute_spec_witness :
    ((loginRoute ⟨some "k", [], [], 0, 0⟩ ⟨none, none, none, some "bad"⟩).1 =
        { status := 401, body := { success := false, error := some "Invalid API key." } }
      ∧ (loginRoute ⟨some "k", [], [], 0, 0⟩ ⟨none, none, none, some "bad"⟩).2 =
        ⟨some "k", [], [], 0, 0⟩)
    ∧ (∃ t,
        (loginRoute ⟨some "k", [], [], 0, 0⟩ ⟨none, none, none, some "k"⟩).1.status = 200
        ∧ (loginRoute ⟨some "k", [], [], 0, 0⟩ ⟨none, none, none, some "k"⟩).1.body =
            { success := true, message := some "Logged in successfully.", token := some t }
        ∧ (loginRoute ⟨some "k", [], [], 0, 0⟩ ⟨none, none, none, some "k"⟩).1.setCookie =
            some t
        ∧ (AuthState.mk (some "k") [] [] 0 0).sessions.lookup t = none
        ∧ sessionGet (loginRoute ⟨some "k", [], [], 0, 0⟩ ⟨none, none, none, some "k"⟩).2 t =
            some (0 + sessionTTL)) :=
  ⟨(loginRoute_spec _ _ "bad" (by decide) rfl (by decide)).1 (by decide),
   (loginRoute_spec _ _ "k" (by decide) rfl (by decide)).2 (by decide)⟩

/-- Claim C5: logout always responds 200 "Logged out successfully." and clears
the cookie; a session named by the cookie reads as absent afterwards; an
unknown token — or no cookie at all — leaves the store untouched; and a
second logout with the same cookie again returns 200. -/
theorem logoutRoute_spec (st : AuthState) (req : Request) :
    (logoutRoute st req).1.status = 200
    ∧ (logoutRoute st req).1.body =
        { success := true, message := some "Logged out successfully." }
    ∧ (logoutRoute st req).1.clearedCookie = true
    ∧ (∀ t, req.sessionCookie = some t → sessionGet (logoutRoute st req).2 t = none)
    ∧ (∀ t, req.sessionCookie = some t → st.sessions.lookup t = none →
        (logoutRoute st req).2 = st)
    ∧ (req.sessionCookie = none → (logoutRoute st req).2 = st)
    ∧ (logoutRoute (logoutRoute st req).2 req).1.status = 200 := by
  refine ⟨rfl, rfl, rfl, ?_, ?_, ?_, rfl⟩
  · intro t ht
    simp [logoutRoute, ht, invalidateSession, sessionGet, lookup_filter_ne]
  · intro t ht hnone
    simp [logoutRoute, ht, invalidateSession, filter_ne_of_lookup_none _ _ hnone]
  · intro h
    simp [logoutRoute, h]

/-- Witness for C5: logging out a live session and an unknown token. -/
theorem logoutRoute_spec_witness :
    (logoutRoute ⟨some "k", [(Token.session 0, 100)], [], 1, 0⟩
        ⟨none, some (Token.session 0), none, none⟩).1.status = 200
    ∧ sessionGet (logoutRoute ⟨some "k", [(Token.session 0, 100)], [], 1, 0⟩
        ⟨none, some (Token.session 0), none, none⟩).2 (Token.session 0) = none
    ∧ (logoutRoute (logoutRoute ⟨some "k", [(Token.session 0, 100)], [], 1, 0⟩
        ⟨none, some (Token.session 0), none, none⟩).2
        ⟨none, some (Token.session 0), none, none⟩).1.status = 200
    ∧ (logoutRoute ⟨some "k", [], [], 0, 0⟩ ⟨none, some (Token.session 5), none, none⟩).2 =
        ⟨some "k", [], [], 0, 0⟩ := by
  obtain ⟨h1, _, _, h4, _, _, h7⟩ :=
    logoutRoute_spec ⟨some "k", [(Token.session 0, 100)], [], 1, 0⟩
      ⟨none, some (Token.session 0), none, none⟩
  obtain ⟨_, _, _, _, g5, _, _⟩ :=
    logoutRoute_spec ⟨some "k", [], [], 0, 0⟩ ⟨none, some (Token.session 5), none, none⟩
  exact ⟨h1, h4 _ rfl, h7, g5 _ rfl (by decide)⟩

/-- Claim C7: the status endpoint responds 200 for every request, reporting
exactly the boolean computed by `isRequestAuthenticated`, requires nothing,
and rejects nothing (the state is untouched). -/
theorem statusRoute_spec (st : AuthState) (req : Request) :
    (statusRoute st req).1.status = 200
    ∧ (statusRoute st req).1.body =
        { success := true, authenticated := some (isRequestAuthenticated st req),
          required := some true }
    ∧ (statusRoute st req).2 = st :=
  ⟨rfl, rfl, rfl⟩

/-- Claim C9: a login request whose `apiKey` is absent or empty (falsy) is
answered 400 "API key is required.", the state is untouched, and the outcome
is independent of the configured secret — the key is classified as missing
before `validateApiKey` could be consulted. -/
theorem loginRoute_missing_key (st : AuthState) (req : Request)
    (h : isFalsy req.bodyApiKey = true) :
    (loginRoute st req).1 =
      { status := 400, body := { success := false, error := some "API key is required." } }
    ∧ (loginRoute st req).2 = st
    ∧ ∀ secret2, (loginRoute { st with secret := secret2 } req).1 = (loginRoute st req).1 := by
  refine ⟨?_, ?_, ?_⟩ <;> simp [loginRoute, h]

/-- Witness for C9: an absent and an empty `apiKey` both give 400. -/
theorem loginRoute_missing_key_witness :
    (loginRoute ⟨some "k", [], [], 0, 0⟩ ⟨none, none, none, none⟩).1 =
      { status := 400, body := { success := false, error := some "API key is required." } }
    ∧ (loginRoute ⟨some "k", [], [], 0, 0⟩ ⟨none, none, none, some ""⟩).1 =
      { status := 400, body := { success := false, error := some "API key is required." } } :=
  ⟨(loginRoute_missing_key ⟨some "k", [], [], 0, 0⟩ ⟨none, none, none, none⟩ (by decide)).1,
   (loginRoute_missing_key ⟨some "k", [], [], 0, 0⟩ ⟨none, none, none, some ""⟩ (by decide)).1⟩

/-- Counterexample to C4: with secret "k" configured and an empty session
store, a request presenting only the valid API key — so its presented session
token is absent — is nevertheless issued a connection token with status 200,
while the claim requires issuance to fail (401) exactly when the presented
session token is absent or expired. -/
theorem tokenIssue_counterexample :
    (Request.mk (some "k") none none none).sessionCookie = none
    ∧ (Request.mk (some "k") none none none).sessionTokenHeader = none
    ∧ (AuthState.mk (some "k") [] [] 0 0).sessions = []
    ∧ (tokenRoute (AuthState.mk (some "k") [] [] 0 0)
        (Request.mk (some "k") none none none)).1.status = 200
    ∧ ¬ (tokenRoute (AuthState.mk (some "k") [] [] 0 0)
        (Request.mk (some "k") none none none)).1.status = 401 := by
  decide

/-- The token endpoint either returns no token (401) or the freshly minted
connection token carrying the current counter. -/
theorem tokenRoute_token_cases (st : AuthState) (req : Request) :
    (tokenRoute st req).1.body.token = none
    ∨ (tokenRoute st req).1.body.token = some (Token.ws st.counter) := by
  by_cases h : isRequestAuthenticated st req = true
  · right; simp [tokenRoute, h, createWsConnectionToken]
  · left
    rw [Bool.not_eq_true] at h
    simp [tokenRoute, h]

/-- Claim C4 as amended: connection-token issuance requires the request to be
authenticated by any accepted credential — the route responds 401
"Authentication required." exactly on unauthenticated requests; an
authenticated request receives a token outside the session-token namespace,
distinct from every stored session token and from the token of any
immediately following issuance; no issuing-session back-reference exists, as
`createWsConnectionToken` is called without a session argument. -/
theorem tokenIssue_amended (st : AuthState) (req : Request) (hWF : WF st) :
    (isRequestAuthenticated st req = false →
      (tokenRoute st req).1 =
        { status := 401,
          body := { success := false, error := some "Authentication required." } }
      ∧ (tokenRoute st req).2 = st)
    ∧ (isRequestAuthenticated st req = true →
      ∃ t, (tokenRoute st req).1.status = 200
        ∧ (tokenRoute st req).1.body.token = some t
        ∧ t.isSessionTok = false
        ∧ (∀ p ∈ st.sessions, p.1 ≠ t)
        ∧ (∀ req2, (tokenRoute (tokenRoute st req).2 req2).1.body.token ≠ some t)) := by
  constructor
  · intro h
    constructor <;> simp [tokenRoute, h]
  · intro h
    refine ⟨Token.ws st.counter, ?_, ?_, rfl, ?_, ?_⟩
    · simp [tokenRoute, h]
    · simp [tokenRoute, h, createWsConnectionToken]
    · intro p hp heq
      obtain ⟨hs, _⟩ := hWF.1 p hp
      rw [heq] at hs
      simp [Token.isSessionTok] at hs
    · intro req2 hcontra
      have hc : (tokenRoute st req).2.counter = st.counter + 1 := by
        simp [tokenRoute, h, createWsConnectionToken]
      rcases tokenRoute_token_cases (tokenRoute st req).2 req2 with hnone | hsome
      · rw [hnone] at hcontra
        exact Option.noConfusion hcontra
      · rw [hsome, hc] at hcontra
        simp at hcontra

/-- Witness for the amended C4: an unauthenticated request is refused and a
request presenting the secret "k" is issued a fresh connection token. -/
theorem tokenIssue_amended_witness :
    ((tokenRoute ⟨some "k", [(Token.session 0, 100)], [], 1, 0⟩ ⟨none, none, none, none⟩).1 =
        { status := 401,
          body := { success := false, error := some "Authentication required." } }
      ∧ (tokenRoute ⟨some "k", [(Token.session 0, 100)], [], 1, 0⟩
          ⟨none, none, none, none⟩).2 = ⟨some "k", [(Token.session 0, 100)], [], 1, 0⟩)
    ∧ (∃ t,
        (tokenRoute ⟨some "k", [(Token.session 0, 100)], [], 1, 0⟩
          ⟨some "k", none, none, none⟩).1.status = 200
        ∧ (tokenRoute ⟨some "k", [(Token.session 0, 100)], [], 1, 0⟩
            ⟨some "k", none, none, none⟩).1.body.token = some t
        ∧ t.isSessionTok = false
        ∧ (∀ p ∈ (AuthState.mk (some "k") [(Token.session 0, 100)] [] 1 0).sessions,
            p.1 ≠ t)
        ∧ (∀ req2,
            (tokenRoute (tokenRoute ⟨some "k", [(Token.session 0, 100)], [], 1, 0⟩
              ⟨some "k", none, none, none⟩).2 req2).1.body.token ≠ some t)) :=
  ⟨(tokenIssue_amended _ ⟨none, none, none, none⟩ (by decide)).1 (by decide),
   (tokenIssue_amended _ ⟨some "k", none, none, none⟩ (by decide)).2 (by decide)⟩

/-- Claim C6: the token endpoint answers an unauthenticated request with 401
"Authentication required." and an authenticated one with 200 carrying a token
and `expiresIn` 300 — the fixed 5-minute connection-token TTL in seconds,
which is also the lifetime recorded for the token in the store. -/
theorem tokenRoute_responses (st : AuthState) (req : Request) :
    (isRequestAuthenticated st req = false →
      (tokenRoute st req).1 =
        { status := 401,
          body := { success := false, error := some "Authentication required." } })
    ∧ (isRequestAuthenticated st req = true →
      ∃ t, (tokenRoute st req).1 =
          { status := 200,
            body := { success := true, token := some t,
                      expiresIn := some connectionTokenTTL } }
        ∧ connectionTokenTTL = 300
        ∧ (t, st.now + connectionTokenTTL) ∈ (tokenRoute st req).2.wsTokens) := by
  constructor
  · intro h
    simp [tokenRoute, h]
  · intro h
    refine ⟨Token.ws st.counter, ?_, rfl, ?_⟩ <;>
      simp [tokenRoute, h, createWsConnectionToken]

/-- Witness for C6: both responses of the token endpoint at concrete
requests. -/
theorem tokenRoute_responses_witness :
    ((tokenRoute ⟨some "k", [], [], 0, 0⟩ ⟨none, none, none, none⟩).1 =
      { status := 401,
        body := { success := false, error := some "Authentication required." } })
    ∧ (∃ t, (tokenRoute ⟨some "k", [], [], 0, 0⟩ ⟨some "k", none, none, none⟩).1 =
          { status := 200,
            body := { success := true, token := some t,
                      expiresIn := some connectionTokenTTL } }
        ∧ connectionTokenTTL = 300
        ∧ (t, 0 + connectionTokenTTL) ∈
            (tokenRoute ⟨some "k", [], [], 0, 0⟩ ⟨some "k", none, none, none⟩).2.wsTokens) :=
  ⟨(tokenRoute_responses ⟨some "k", [], [], 0, 0⟩ ⟨none, none, none, none⟩).1 (by decide),
   (tokenRoute_responses ⟨some "k", [], [], 0, 0⟩ ⟨some "k", none, none, none⟩).2 (by decide)⟩

/-- A successful `Option.orElse` comes from one of its two sides. -/
theorem orElse_eq_some_cases (o1 : Option String) (f : Unit → Option String) (a : String)
    (h : o1.orElse f = some a) : o1 = some a ∨ f () = some a := by
  cases o1 with
  | some x => left; simpa [Option.orElse] using h
  | none => right; simpa [Option.orElse] using h

/-- The alternation only ever captures one of the three assessment words. -/
theorem tryAlt_mem (cs : List Char) (a : String) (h : tryAlt cs = some a) :
    a = "FULLY_IMPLEMENTED" ∨ a = "PARTIALLY_IMPLEMENTED" ∨ a = "NOT_IMPLEMENTED" := by
  unfold tryAlt at h
  split at h
  · left; exact (Option.some.inj h).symm
  · split at h
    · right; left; exact (Option.some.inj h).symm
    · split at h
      · right; right; exact (Option.some.inj h).symm
      · exact Option.noConfusion h

/-- The star-then-alternation step only ever captures one of the three
assessment words. -/
theorem tryStars_mem (cs : List Char) (a : String) (h : tryStars cs = some a) :
    a = "FULLY_IMPLEMENTED" ∨ a = "PARTIALLY_IMPLEMENTED" ∨ a = "NOT_IMPLEMENTED" := by
  unfold tryStars at h
  split at h
  · rcases orElse_eq_some_cases _ _ _ h with h1 | h1
    · exact tryAlt_mem _ _ h1
    · rcases orElse_eq_some_cases _ _ _ h1 with h2 | h2 <;> exact tryAlt_mem _ _ h2
  · rcases orElse_eq_some_cases _ _ _ h with h1 | h1 <;> exact tryAlt_mem _ _ h1
  · exact tryAlt_mem _ _ h

/-- Any capture produced by the leftmost regex match is one of the three
assessment words. -/
theorem findAssessment_mem (cs : List Char) (a : String)
    (h : findAssessment cs = some a) :
    a = "FULLY_IMPLEMENTED" ∨ a = "PARTIALLY_IMPLEMENTED" ∨ a = "NOT_IMPLEMENTED" := by
  induction cs with
  | nil => simp [findAssessment] at h
  | cons c cs ih =>
    unfold findAssessment at h
    split at h
    · split at h
      · rename_i heq
        cases h
        exact tryStars_mem _ _ heq
      · exact ih h
    · exact ih h

/-- Claim C10: every 200 response of the validate-feature handler carries an
assessment equal to one of FULLY_IMPLEMENTED, PARTIALLY_IMPLEMENTED or
NOT_IMPLEMENTED, and an agent reply containing no parseable ASSESSMENT line
receives the fail-closed default NOT_IMPLEMENTED. -/
theorem validateFeature_assessment (o : AgentOutcome) (content : String)
    (h : (validateFeatureHandler o).status = 200) :
    (∃ a, (validateFeatureHandler o).assessment = some a
      ∧ (a = "FULLY_IMPLEMENTED" ∨ a = "PARTIALLY_IMPLEMENTED" ∨ a = "NOT_IMPLEMENTED"))
    ∧ (findAssessment content.toList = none →
        (validateFeatureHandler (.agentReply (some content))).assessment =
          some "NOT_IMPLEMENTED") := by
  constructor
  · cases o with
    | featureNotFound => simp [validateFeatureHandler] at h
    | sessionCreateFailed => simp [validateFeatureHandler] at h
    | sendFailed => simp [validateFeatureHandler] at h
    | resultNotSuccess => simp [validateFeatureHandler] at h
    | thrown msg => simp [validateFeatureHandler] at h
    | agentReply c =>
      refine ⟨extractAssessment (c.getD ""), ?_, ?_⟩
      · simp [validateFeatureHandler]
      · unfold extractAssessment
        cases hf : findAssessment (c.getD "").toList with
        | some a => simpa using findAssessment_mem _ _ hf
        | none => simp
  · intro hf
    have hf' : findAssessment content.data = none := hf
    simp [validateFeatureHandler, extractAssessment, hf']

/-- Witness for C10: an agent reply with no ASSESSMENT line is assessed
NOT_IMPLEMENTED. -/
theorem validateFeature_assessment_witness :
    (∃ a, (validateFeatureHandler (.agentReply (some "no verdict"))).assessment = some a
      ∧ (a = "FULLY_IMPLEMENTED" ∨ a = "PARTIALLY_IMPLEMENTED" ∨ a = "NOT_IMPLEMENTED"))
    ∧ (validateFeatureHandler (.agentReply (some "no verdict"))).assessment =
        some "NOT_IMPLEMENTED" := by
  obtain ⟨h1, h2⟩ :=
    validateFeature_assessment (.agentReply (some "no verdict")) "no verdict" rfl
  exact ⟨h1, h2 (by decide)⟩

end Automaker
